import Mathlib

/-! Formal model of the task-lifecycle core of the `mcp_a2a_gateway` repository,
as a shallow embedding of `mcp_a2a_gateway/task_manager.py`,
`mcp_a2a_gateway/agent_manager.py` and `mcp_a2a_gateway/server.py`.

Modelling conventions:
- Python `dict[str, T]` becomes an association list `List (String × T)` with
  insertion-order preserving update (`dictSet`) and first-match lookup
  (`dictGet`), matching CPython dict semantics.
- `datetime.now(timezone.utc)` is an external clock; every operation that
  stamps a record takes the current time as an explicit `now : Nat` argument.
- JSON-ish result payloads (`Optional[Dict[str, Any]]`) become
  `Option (List (String × PyVal))`; artifact entries are opaque to every
  operation of the core and are modelled as opaque strings inside `PyVal.list`.
- Network interaction (the a2a client calls) is modelled by passing the remote
  reply as an explicit argument, together with a boolean in the result that
  records whether the operation reached the point of performing a remote call.
- Raised exceptions become `Except String` (the error string is `str(e)`).
-/

namespace Gateway

/-- Values appearing in the JSON-like result dictionaries built by
`task_manager.py` (string fields, numeric codes, `None`, and lists whose
elements the core never inspects, kept as opaque strings). -/
inductive PyVal where
  | str (s : String)
  | int (n : Int)
  | list (xs : List String)
  | none
  deriving Repr, DecidableEq

/-- A JSON-like dictionary with string keys, as used for `StoredTask.result`. -/
abbrev PyDict := List (String × PyVal)

/-- Python dict update `d[k] = v`: replace in place if the key exists,
otherwise append (CPython dicts preserve insertion order). -/
def dictSet {α : Type} (d : List (String × α)) (k : String) (v : α) :
    List (String × α) :=
  if d.any (fun p => p.1 = k) then
    d.map (fun p => if p.1 = k then (k, v) else p)
  else
    d ++ [(k, v)]

/-- Python dict lookup `d.get(k)`. -/
def dictGet {α : Type} (d : List (String × α)) (k : String) : Option α :=
  (d.find? (fun p => p.1 = k)).map (fun p => p.2)

/-- Lookup in a `PyDict` (`d.get(k)` on a result payload). -/
def pyDictGet (d : PyDict) (k : String) : Option PyVal :=
  dictGet d k

/-- Python truthiness of an `Optional[Dict]`: `None` and the empty dict are
falsy, every non-empty dict is truthy. -/
def pyTruthyDict : Option PyDict → Bool
  | Option.none => false
  | Option.some d => !d.isEmpty

/-- The model of `StoredTask` (task_manager.py line 42): the gateway's stored
record for one delegated unit of work. Timestamps are abstract `Nat` clock
readings. -/
structure StoredTask where
  agent_task_id : Option String
  task_id : String
  agent_url : String
  agent_name : String
  request_message : String
  status : String
  result : Option PyDict
  created_at : Nat
  updated_at : Nat
  deriving Repr, DecidableEq

/-- Model of `StoredTask.update_status` (task_manager.py lines 64-69): set
`status` unconditionally, overwrite `result` only when the argument is truthy
(`if result:`), and refresh `updated_at`. The method does not look at the
current value of `status`. -/
def StoredTask.update_status (t : StoredTask) (status : String)
    (result : Option PyDict) (now : Nat) : StoredTask :=
  { t with
    status := status
    result := if pyTruthyDict result then result else t.result
    updated_at := now }

/-- The terminal states, written inline in the source as the list
`["completed", "error", "cancelled"]` (task_manager.py lines 126, 357, 421). -/
def finalStates : List String := ["completed", "error", "cancelled"]

example :
    (StoredTask.update_status
      { agent_task_id := Option.none, task_id := "t", agent_url := "u",
        agent_name := "n", request_message := "m", status := "completed",
        result := Option.none, created_at := 0, updated_at := 0 }
      "running" Option.none 5).status = "running" := by decide

/-- Model of `AgentInfo` (agent_manager.py line 13): the core only ever reads
the card's `name`, so the card is reduced to that field. -/
structure AgentInfo where
  card_name : String
  deriving Repr, DecidableEq

/-- The shared mutable state of the gateway process: the task table
(`TaskManager.tasks`) and the agent registry
(`AgentManager.registered_agents`). -/
structure GatewayState where
  tasks : List (String × StoredTask)
  agents : List (String × AgentInfo)
  deriving Repr, DecidableEq

/-- The parts of an a2a `Task` object that `task_manager.py` reads: its id,
context id, the state value of its status, the text parts of its status
message (empty when the status carries no message), and its artifacts
(opaque to the core). -/
structure A2ATask where
  id : String
  contextId : Option String
  state : String
  statusMessageParts : List String
  artifacts : List String
  deriving Repr, DecidableEq

/-- Model of `format_task_response` (task_manager.py lines 75-97): build the
response dict with `request_status`, `session_id`, `state`, `message`
(space-joined text parts when the status message has parts, else `None`) and
`artifacts`. -/
def format_task_response (task : A2ATask) : PyDict :=
  [("request_status", PyVal.str "success"),
   ("session_id",
     match task.contextId with
     | Option.some s => PyVal.str s
     | Option.none => PyVal.none),
   ("state", PyVal.str task.state),
   ("message",
     if task.statusMessageParts.isEmpty then PyVal.none
     else PyVal.str (String.intercalate " " task.statusMessageParts)),
   ("artifacts", PyVal.list task.artifacts)]

/-- The runtime shapes of a `SendMessageResponse` distinguished by the
`isinstance` checks in `_process_agent_response` (task_manager.py lines
170, 198, 237): a success carrying a `Message` (its text parts), a success
carrying a `Task`, a JSON-RPC error, or any other shape (`other` records
Python's name for the unexpected type of `response.root`). -/
inductive SendResponse where
  | successMessage (parts : List String)
  | successTask (task : A2ATask)
  | error (code : Int) (message : String)
  | other (typeName : String)
  deriving Repr, DecidableEq

/-- Model of `TaskManager._process_agent_response` (task_manager.py lines
156-257). Arguments mirror the Python parameters; `now` is the clock. The
result is `Except` because the final fallthrough raises `TypeError`; on
success it carries the returned task snapshot (`model_dump`), the new state,
and whether a background polling task was spawned (`asyncio.create_task` of
`_poll_and_update_task`, line 230). -/
def process_agent_response (st : GatewayState) (response : SendResponse)
    (gateway_task_id agent_url : String) (agent_info : AgentInfo)
    (message_text : String) (now : Nat) :
    Except String (StoredTask × GatewayState × Bool) :=
  let stored := dictGet st.tasks gateway_task_id
  match response with
  | SendResponse.successMessage parts =>
    let message_content := String.intercalate " " parts
    let task_response : PyDict :=
      [("request_status", PyVal.str "success"),
       ("message", PyVal.str message_content)]
    let newTask : StoredTask :=
      match stored with
      | Option.some t => t.update_status "completed" (Option.some task_response) now
      | Option.none =>
        { agent_task_id := Option.none, task_id := gateway_task_id,
          agent_url := agent_url, agent_name := agent_info.card_name,
          request_message := message_text, status := "completed",
          result := Option.some task_response, created_at := now,
          updated_at := now }
    Except.ok (newTask, { st with tasks := dictSet st.tasks gateway_task_id newTask }, false)
  | SendResponse.successTask result_task =>
    let agent_task_id :=
      if result_task.id = "" then gateway_task_id else result_task.id
    let newTask : StoredTask :=
      match stored with
      | Option.some t =>
        ({ t with agent_task_id := Option.some agent_task_id }).update_status
          result_task.state (Option.some (format_task_response result_task)) now
      | Option.none =>
        { agent_task_id := Option.some agent_task_id,
          task_id := gateway_task_id, agent_url := agent_url,
          agent_name := agent_info.card_name, request_message := message_text,
          status := result_task.state,
          result := Option.some (format_task_response result_task),
          created_at := now, updated_at := now }
    Except.ok (newTask, { st with tasks := dictSet st.tasks gateway_task_id newTask }, true)
  | SendResponse.error code message =>
    let error_response : PyDict :=
      [("request_status", PyVal.str "error"),
       ("message", PyVal.str
         ("Agent Error: " ++ message ++ " (Code: " ++ toString code ++ ")"))]
    let newTask : StoredTask :=
      match stored with
      | Option.some t => t.update_status "error" (Option.some error_response) now
      | Option.none =>
        { agent_task_id := Option.none, task_id := gateway_task_id,
          agent_url := agent_url, agent_name := agent_info.card_name,
          request_message := message_text, status := "error",
          result := Option.some error_response, created_at := now,
          updated_at := now }
    Except.ok (newTask, { st with tasks := dictSet st.tasks gateway_task_id newTask }, false)
  | SendResponse.other typeName =>
    Except.error ("Unexpected success response type: " ++ typeName)

/-- What `await send_coro` yields inside `_wait_for_response_and_process`:
the response value, an ordinary exception (an `Exception`, whose `str` is
recorded), or `asyncio.CancelledError` because the task was already cancelled.
Since Python 3.8 `CancelledError` derives from `BaseException`, so the
`except Exception` handler at line 276 does not catch it. -/
inductive AwaitResult where
  | value (response : SendResponse)
  | exn (message : String)
  | cancelled
  deriving Repr, DecidableEq

/-- How the background waiter coroutine terminated. -/
inductive BgOutcome where
  | completed
  | cancelledPropagated
  deriving Repr, DecidableEq

/-- Model of `TaskManager._wait_for_response_and_process` (task_manager.py
lines 259-284): await the in-flight send, feed the response through
`_process_agent_response`; any `Exception` raised (including the classifier's
`TypeError`) is caught and, when a stored task exists, recorded as a terminal
error with `str(e)` as the message; a `CancelledError` from an
already-cancelled `send_coro` propagates uncaught, running no handler. -/
def wait_for_response_and_process (st : GatewayState) (awaited : AwaitResult)
    (gateway_task_id agent_url : String) (agent_info : AgentInfo)
    (message_text : String) (now : Nat) : BgOutcome × GatewayState :=
  let recordError (st : GatewayState) (e : String) : GatewayState :=
    match dictGet st.tasks gateway_task_id with
    | Option.some t =>
      { st with
        tasks := dictSet st.tasks gateway_task_id
          (t.update_status "error"
            (Option.some [("request_status", PyVal.str "error"),
                          ("message", PyVal.str e)]) now) }
    | Option.none => st
  match awaited with
  | AwaitResult.value response =>
    match process_agent_response st response gateway_task_id agent_url
        agent_info message_text now with
    | Except.ok (_, stNew, _) => (BgOutcome.completed, stNew)
    | Except.error e => (BgOutcome.completed, recordError st e)
  | AwaitResult.exn e => (BgOutcome.completed, recordError st e)
  | AwaitResult.cancelled => (BgOutcome.cancelledPropagated, st)

/-- The immediate-response timeout constant (task_manager.py line 39),
in seconds. -/
def IMMEDIATE_RESPONSE_TIMEOUT : Nat := 2

/-- Semantics of `asyncio.wait_for(send_coro, timeout)` followed, in the
timeout branch, by a later `await send_coro`: when the inner task resolves
within the timeout its value is returned; when the timeout elapses first,
`wait_for` cancels the inner task and raises `TimeoutError` (documented
CPython behavior), so a later `await` of that same task raises
`CancelledError`. `arrival` is the instant the remote reply would resolve. -/
def wait_for_then_await (arrival : Nat) (timeout : Nat)
    (response : SendResponse) : Option SendResponse × AwaitResult :=
  if arrival ≤ timeout then (Option.some response, AwaitResult.value response)
  else (Option.none, AwaitResult.cancelled)

/-- Model of `TaskManager.send_message` (task_manager.py lines 286-346)
together with the completion of the background waiter it may spawn.
`gid` stands for the generated `gateway_task_id` uuid, `response` for the
remote reply and `arrival` for the instant that reply resolves. The first
component is what the coroutine returns to its caller (or the message of the
`ValueError` it raises); the second is the gateway state once the spawned
background waiter (if any) has finished. -/
def send_message (st : GatewayState) (agent_url message_text : String)
    (gid : String) (response : SendResponse) (arrival : Nat) (now : Nat) :
    Except String StoredTask × GatewayState :=
  match dictGet st.agents agent_url with
  | Option.none => (Except.error ("Agent not registered: " ++ agent_url), st)
  | Option.some agent_info =>
    match wait_for_then_await arrival IMMEDIATE_RESPONSE_TIMEOUT response with
    | (Option.some resp, _) =>
      match process_agent_response st resp gid agent_url agent_info
          message_text now with
      | Except.ok (t, stNew, _) => (Except.ok t, stNew)
      | Except.error e => (Except.error e, st)
    | (Option.none, lateAwait) =>
      let pending : StoredTask :=
        { agent_task_id := Option.none, task_id := gid,
          agent_url := agent_url, agent_name := agent_info.card_name,
          request_message := message_text, status := "pending",
          result := Option.none, created_at := now, updated_at := now }
      let st1 := { st with tasks := dictSet st.tasks gid pending }
      let stFinal := (wait_for_response_and_process st1 lateAwait gid agent_url
        agent_info message_text arrival).2
      (Except.ok pending, stFinal)

/-- The non-record value `{"status": "error", "message": ...}` that the
`send_message` MCP tool returns instead of a task snapshot, versus the task
snapshot path. -/
inductive ToolResponse where
  | errorDict (status message : String)
  | record (t : StoredTask)
  deriving Repr, DecidableEq

/-- Model of the `send_message` MCP tool (server.py lines 148-197) up to its
registration guard: when the agent is not registered it returns the plain
dict `{"status": "error", "message": "Agent not registered: ..."}` without
touching the task store; otherwise it enters the try-block and delegates
(the delegate's answer, or the error dict built from any exception it
raises, is abstracted as `delegate`). -/
def send_message_tool (st : GatewayState) (agent_url : String)
    (delegate : ToolResponse × GatewayState) : ToolResponse × GatewayState :=
  match dictGet st.agents agent_url with
  | Option.none =>
    (ToolResponse.errorDict "error" ("Agent not registered: " ++ agent_url), st)
  | Option.some _ => delegate

/-- Containment of `pat` in `s` over character lists (the Python `in`
operator on strings). -/
def charsContain (pat : List Char) : List Char → Bool
  | [] => pat.isEmpty
  | c :: rest => pat.isPrefixOf (c :: rest) || charsContain pat rest

/-- Python `str.lower()` (restricted to the ASCII alphabet, which covers
every string the code compares). -/
def pyLower (s : String) : String := ⟨s.data.map Char.toLower⟩

/-- Python `pat in s` on strings. -/
def strContains (s pat : String) : Bool := charsContain pat.data s.data

/-- The runtime shapes of a `GetTaskResponse` in `get_task_result`
(task_manager.py lines 380, 389), plus the transport exception caught at
line 405 (`str(e)` recorded). -/
inductive GetTaskReply where
  | success (task : A2ATask)
  | error (code : Int) (message : String)
  | exn (message : String)
  deriving Repr, DecidableEq

/-- Model of `TaskManager.get_task_result` (task_manager.py lines 349-410).
`reply` is the remote agent's answer to the `tasks/get` probe; the boolean in
the result records whether that probe was performed at all. A missing task id
raises `ValueError` (the `Except.error` case). -/
def get_task_result (st : GatewayState) (task_id : String)
    (reply : GetTaskReply) (now : Nat) :
    Except String StoredTask × GatewayState × Bool :=
  match dictGet st.tasks task_id with
  | Option.none => (Except.error ("Task ID not found: " ++ task_id), st, false)
  | Option.some stored_task =>
    if finalStates.contains stored_task.status then
      (Except.ok stored_task, st, false)
    else
      match dictGet st.agents stored_task.agent_url with
      | Option.none =>
        let t2 := stored_task.update_status "error"
          (Option.some
            [("message",
              PyVal.str "Agent for this task is no longer registered.")]) now
        (Except.ok t2, { st with tasks := dictSet st.tasks task_id t2 }, false)
      | Option.some _ =>
        let t2 :=
          match reply with
          | GetTaskReply.success task =>
            let task_response := format_task_response task
            let new_state :=
              match pyDictGet task_response "state" with
              | Option.some (PyVal.str s) => s
              | _ => "running"
            stored_task.update_status new_state (Option.some task_response) now
          | GetTaskReply.error code message =>
            if strContains (pyLower message) "not found" then
              stored_task.update_status "running" Option.none now
            else
              stored_task.update_status "error"
                (Option.some
                  [("request_status", PyVal.str "error"),
                   ("message", PyVal.str
                     ("Agent Error: " ++ message ++ " (Code: " ++
                      toString code ++ ")"))]) now
          | GetTaskReply.exn e =>
            stored_task.update_status "error"
              (Option.some
                [("request_status", PyVal.str "error"),
                 ("message", PyVal.str e)]) now
        (Except.ok t2, { st with tasks := dictSet st.tasks task_id t2 }, true)

/-- The runtime shapes of a `CancelTaskResponse` in `cancel_task`
(task_manager.py lines 451, 456, 469): success, JSON-RPC error, an
unexpected type (which raises `TypeError` inside the try-block, caught by
the `except` at line 475), or a transport exception. -/
inductive CancelReply where
  | success (task : A2ATask)
  | error (code : Int) (message : String)
  | other (typeName : String)
  | exn (message : String)
  deriving Repr, DecidableEq

/-- Model of `TaskManager.cancel_task` (task_manager.py lines 412-480).
`reply` is the remote agent's answer to the cancel request; the boolean in
the result records whether that request was sent at all. -/
def cancel_task (st : GatewayState) (task_id : String)
    (reply : CancelReply) (now : Nat) :
    Except String StoredTask × GatewayState × Bool :=
  match dictGet st.tasks task_id with
  | Option.none => (Except.error ("Task ID not found: " ++ task_id), st, false)
  | Option.some stored_task =>
    if finalStates.contains stored_task.status then
      (Except.ok stored_task, st, false)
    else
      match dictGet st.agents stored_task.agent_url with
      | Option.none =>
        let t2 := stored_task.update_status "error"
          (Option.some
            [("request_status", PyVal.str "error"),
             ("message", PyVal.str
               ("Agent for task " ++ task_id ++ " not found."))]) now
        (Except.ok t2, { st with tasks := dictSet st.tasks task_id t2 }, false)
      | Option.some _ =>
        let t2 :=
          match reply with
          | CancelReply.success task =>
            stored_task.update_status "cancelled"
              (Option.some (format_task_response task)) now
          | CancelReply.error code message =>
            stored_task.update_status "error"
              (Option.some
                [("request_status", PyVal.str "error"),
                 ("message", PyVal.str
                   ("Agent Error on cancel: " ++ message ++ " (Code: " ++
                    toString code ++ ")"))]) now
          | CancelReply.other typeName =>
            stored_task.update_status "error"
              (Option.some
                [("request_status", PyVal.str "error"),
                 ("message", PyVal.str
                   ("Unexpected response type on cancel: " ++ typeName))]) now
          | CancelReply.exn e =>
            stored_task.update_status "error"
              (Option.some
                [("request_status", PyVal.str "error"),
                 ("message", PyVal.str e)]) now
        (Except.ok t2, { st with tasks := dictSet st.tasks task_id t2 }, true)

/-- Python list slice `l[:n]` for an `int` bound: a nonnegative bound takes
that many elements from the front; a negative bound stops `|n|` elements
before the end (clipped at zero). -/
def pySlice {α : Type} (l : List α) (n : Int) : List α :=
  if 0 ≤ n then l.take n.toNat
  else l.take ((l.length : Int) + n).toNat

/-- The comparison `list.sort(key=lambda t: t.updated_at, reverse=reverse)`
performs: ascending on `updated_at`, flipped when `reverse`. -/
def taskSortLe (reverse : Bool) (a b : StoredTask) : Bool :=
  if reverse then b.updated_at ≤ a.updated_at else a.updated_at ≤ b.updated_at

/-- Model of `TaskManager.get_task_list` (task_manager.py lines 558-575):
snapshot the table values, filter by exact status match unless `status` is
`"all"`, stable-sort by `updated_at` (descending when `sort` is
`"Descending"`), and slice to the first `number` entries. -/
def get_task_list (tasks : List (String × StoredTask)) (status : String)
    (sort : String) (number : Int) : List StoredTask :=
  let ts := tasks.map (fun p => p.2)
  let ts := if status ≠ "all" then ts.filter (fun t => t.status = status) else ts
  let reverse := sort = "Descending"
  pySlice (ts.mergeSort (taskSortLe reverse)) number

/-- Model of `TaskManager.remove_tasks_for_agent` (task_manager.py lines
110-118): delete every task whose `agent_url` equals `url` and return how
many were deleted. -/
def remove_tasks_for_agent (tasks : List (String × StoredTask)) (url : String) :
    List (String × StoredTask) × Nat :=
  let tasks_to_remove := tasks.filter (fun p => p.2.agent_url = url)
  (tasks.filter (fun p => p.2.agent_url ≠ url), tasks_to_remove.length)

/-- Model of `AgentManager.unregister_agent` (agent_manager.py lines 45-51):
pop the registry entry when present. -/
def agent_manager_unregister (agents : List (String × AgentInfo))
    (url : String) : Option AgentInfo × List (String × AgentInfo) :=
  match dictGet agents url with
  | Option.some info => (Option.some info, agents.filter (fun p => p.1 ≠ url))
  | Option.none => (Option.none, agents)

/-- Return value of the `unregister_agent` MCP tool. -/
inductive UnregisterResult where
  | notFound (message : String)
  | success (unregistered_agent : String) (removed_tasks : Nat)
  deriving Repr, DecidableEq

/-- Model of the `unregister_agent` MCP tool (server.py lines 112-142):
unknown url yields the error dict and no other effect; otherwise the agent
entry is popped and every task of that agent removed, returning the count. -/
def unregister_agent_tool (st : GatewayState) (url : String) :
    UnregisterResult × GatewayState :=
  match agent_manager_unregister st.agents url with
  | (Option.none, _) =>
    (UnregisterResult.notFound ("Agent not registered: " ++ url), st)
  | (Option.some info, agents2) =>
    let removed := remove_tasks_for_agent st.tasks url
    (UnregisterResult.success info.card_name removed.2,
     { tasks := removed.1, agents := agents2 })

/-- A concrete task in terminal state `completed`, used as a test fixture. -/
def exCompletedTask : StoredTask :=
  { agent_task_id := Option.none, task_id := "gid1", agent_url := "http://a",
    agent_name := "Agent A", request_message := "hi", status := "completed",
    result := Option.some [("request_status", PyVal.str "success"),
                           ("message", PyVal.str "hello")],
    created_at := 0, updated_at := 1 }

/-- A concrete non-terminal task owned by the registered agent fixture. -/
def exRunningTask : StoredTask :=
  { agent_task_id := Option.some "at2", task_id := "gid2",
    agent_url := "http://a", agent_name := "Agent A",
    request_message := "hi2", status := "running", result := Option.none,
    created_at := 0, updated_at := 2 }

/-- A concrete non-terminal task whose agent is not in the registry fixture. -/
def exOtherTask : StoredTask :=
  { agent_task_id := Option.none, task_id := "gid3", agent_url := "http://b",
    agent_name := "Agent B", request_message := "hi3", status := "running",
    result := Option.none, created_at := 0, updated_at := 3 }

/-- A registry fixture holding one agent. -/
def exAgents : List (String × AgentInfo) :=
  [("http://a", { card_name := "Agent A" })]

/-- A gateway state fixture: three tasks, one registered agent. -/
def exState : GatewayState :=
  { tasks := [("gid1", exCompletedTask), ("gid2", exRunningTask),
              ("gid3", exOtherTask)],
    agents := exAgents }

/-- The empty gateway state. -/
def emptyState : GatewayState := { tasks := [], agents := [] }

/-- A gateway state fixture with one registered agent and no tasks. -/
def exAgentOnlyState : GatewayState := { tasks := [], agents := exAgents }

theorem find?_map_replace {α : Type} (d : List (String × α)) (k : String)
    (v : α) (h : d.any (fun p => p.1 = k) = true) :
    (d.map (fun p => if p.1 = k then (k, v) else p)).find?
      (fun p => p.1 = k) = Option.some (k, v) := by
  induction d with
  | nil => simp at h
  | cons q rest ih =>
    by_cases hq : q.1 = k
    · simp [List.find?_cons, hq]
    · have hrest : rest.any (fun p => p.1 = k) = true := by
        simpa [List.any_cons, hq] using h
      simp [List.find?_cons, hq, ih hrest]

theorem dictGet_dictSet {α : Type} (d : List (String × α)) (k : String)
    (v : α) : dictGet (dictSet d k v) k = Option.some v := by
  unfold dictGet dictSet
  by_cases h : d.any (fun p => p.1 = k) = true
  · rw [if_pos h, find?_map_replace d k v h]
    rfl
  · rw [if_neg h, List.find?_append]
    have hnone : d.find? (fun p => p.1 = k) = Option.none := by
      rw [List.find?_eq_none]
      intro x hx hpx
      exact h (List.any_eq_true.mpr ⟨x, hx, hpx⟩)
    simp [hnone, List.find?_cons]

/-- C1 counterexample: the claim that `StoredTask.update_status` is a no-op on
a task whose stored state is terminal is false — a single `update_status`
call on a `completed` task overwrites its status and timestamp. -/
theorem C1_counterexample :
    finalStates.contains exCompletedTask.status = true ∧
    (exCompletedTask.update_status "running" Option.none 5).status =
      "running" ∧
    exCompletedTask.update_status "running" Option.none 5 ≠
      exCompletedTask := by decide

/-- C1 (amended): `StoredTask.update_status` never inspects the stored state —
even when the stored state is terminal (`completed`, `error` or `cancelled`),
the mutation applies: the status is overwritten with the given value and
`updated_at` is refreshed. Terminal-state finality is only respected by the
callers that skip the update, not inside `update_status` itself. -/
theorem C1_update_status_ignores_terminal (t : StoredTask) (s : String)
    (r : Option PyDict) (now : Nat)
    (_hterm : finalStates.contains t.status = true) :
    (t.update_status s r now).status = s ∧
    (t.update_status s r now).updated_at = now := ⟨rfl, rfl⟩

/-- C1 witness: the amended theorem applied to a concrete completed task. -/
theorem C1_witness :
    (exCompletedTask.update_status "running" Option.none 5).status =
      "running" :=
  (C1_update_status_ignores_terminal exCompletedTask "running" Option.none 5
    (by decide)).1

/-- C2: in `send_message`, a remote reply that resolves after the
immediate-response timeout is dropped, not captured. Because
`asyncio.wait_for` cancels `send_coro` when the timeout fires, the spawned
`_wait_for_response_and_process` awaits an already-cancelled task, receives
`CancelledError` (which its `except Exception` does not catch), and never
records the reply: the stored record stays `pending` with no result. Had the
same reply resolved within the timeout, the record would have been
`completed` with the reply captured — exhibiting the divergence from the
claimed never-aborted background continuation. -/
theorem C2_late_reply_dropped :
    ((send_message exAgentOnlyState "http://a" "hi" "gid9"
        (SendResponse.successMessage ["done"]) 5 3).2.tasks.map
      (fun p => (p.1, p.2.status, p.2.result))) =
      [("gid9", "pending", Option.none)] ∧
    ((send_message exAgentOnlyState "http://a" "hi" "gid9"
        (SendResponse.successMessage ["done"]) 1 3).2.tasks.map
      (fun p => (p.1, p.2.status, p.2.result))) =
      [("gid9", "completed",
        Option.some [("request_status", PyVal.str "success"),
                     ("message", PyVal.str "done")])] := by
  exact ⟨rfl, rfl⟩

/-- C3 counterexample: the claim that every reply shape, including an
unrecognized one, produces a TaskRecord mutation is false — on an
unrecognized shape `_process_agent_response` raises `TypeError` and performs
no mutation at all (the `Except.error` return carries no new state). -/
theorem C3_counterexample :
    process_agent_response exState (SendResponse.other "dict") "gid2"
      "http://a" { card_name := "Agent A" } "hi2" 7 =
      Except.error "Unexpected success response type: dict" := rfl

/-- C3 (amended): `_process_agent_response` classifies the three recognized
reply shapes totally, each producing a TaskRecord mutation stored under the
gateway id (immediate message → terminal `completed`; task handle → the
remote state, with background polling spawned; upstream error → terminal
`error`); an unrecognized shape does not mutate the store but raises
`TypeError`, and it is the background waiter's exception handler that then
records a terminal `error` noting the unexpected shape, provided a stored
task exists. -/
theorem C3_classifier_cases (st : GatewayState) (gid url : String)
    (info : AgentInfo) (msg : String) (now : Nat) :
    (∀ parts, ∃ t st2,
      process_agent_response st (SendResponse.successMessage parts) gid url
        info msg now = Except.ok (t, st2, false) ∧
      t.status = "completed" ∧ dictGet st2.tasks gid = Option.some t) ∧
    (∀ task : A2ATask, ∃ t st2,
      process_agent_response st (SendResponse.successTask task) gid url
        info msg now = Except.ok (t, st2, true) ∧
      t.status = task.state ∧ dictGet st2.tasks gid = Option.some t) ∧
    (∀ (code : Int) (m : String), ∃ t st2,
      process_agent_response st (SendResponse.error code m) gid url
        info msg now = Except.ok (t, st2, false) ∧
      t.status = "error" ∧ dictGet st2.tasks gid = Option.some t) ∧
    (∀ typeName,
      process_agent_response st (SendResponse.other typeName) gid url
        info msg now =
        Except.error ("Unexpected success response type: " ++ typeName) ∧
      (∀ t0, dictGet st.tasks gid = Option.some t0 →
        (wait_for_response_and_process st
          (AwaitResult.value (SendResponse.other typeName)) gid url info msg
          now).1 = BgOutcome.completed ∧
        dictGet (wait_for_response_and_process st
          (AwaitResult.value (SendResponse.other typeName)) gid url info msg
          now).2.tasks gid =
        Option.some (t0.update_status "error"
          (Option.some [("request_status", PyVal.str "error"),
            ("message", PyVal.str
              ("Unexpected success response type: " ++ typeName))])
          now))) := by
  refine ⟨fun parts => ?_, fun task => ?_, fun code m => ?_,
    fun typeName => ⟨rfl, fun t0 h0 => ?_⟩⟩
  · simp only [process_agent_response]
    cases hst : dictGet st.tasks gid with
    | none => exact ⟨_, _, rfl, rfl, dictGet_dictSet _ _ _⟩
    | some t => exact ⟨_, _, rfl, rfl, dictGet_dictSet _ _ _⟩
  · simp only [process_agent_response]
    cases hst : dictGet st.tasks gid with
    | none => exact ⟨_, _, rfl, rfl, dictGet_dictSet _ _ _⟩
    | some t => exact ⟨_, _, rfl, rfl, dictGet_dictSet _ _ _⟩
  · simp only [process_agent_response]
    cases hst : dictGet st.tasks gid with
    | none => exact ⟨_, _, rfl, rfl, dictGet_dictSet _ _ _⟩
    | some t => exact ⟨_, _, rfl, rfl, dictGet_dictSet _ _ _⟩
  · simp only [wait_for_response_and_process, process_agent_response, h0]
    exact ⟨trivial, dictGet_dictSet _ _ _⟩

/-- C3 witness: the amended theorem applied at a concrete state and reply. -/
theorem C3_witness :
    process_agent_response exState (SendResponse.other "NoneType") "gid2"
      "http://a" { card_name := "Agent A" } "hi2" 7 =
      Except.error "Unexpected success response type: NoneType" :=
  ((C3_classifier_cases exState "gid2" "http://a" { card_name := "Agent A" }
    "hi2" 7).2.2.2 "NoneType").1

/-- C4 counterexample: the claim that a call with an unregistered endpoint
returns an immediate terminal error TaskRecord through the same return path
as a success is false — `TaskManager.send_message` raises `ValueError`, and
the `send_message` MCP tool returns the plain error dict, not a task record,
even when its delegate would have produced one; no error record is stored. -/
theorem C4_counterexample :
    (send_message emptyState "http://x" "hi" "g"
      (SendResponse.successMessage ["ok"]) 0 0).1 =
      Except.error "Agent not registered: http://x" ∧
    send_message_tool emptyState "http://x"
      (ToolResponse.record exCompletedTask, emptyState) =
      (ToolResponse.errorDict "error" "Agent not registered: http://x",
       emptyState) := ⟨rfl, rfl⟩

/-- C4 (amended): for an unregistered endpoint, `TaskManager.send_message`
raises `ValueError("Agent not registered: ...")` without touching the task
store, and the `send_message` MCP tool guards this case by returning the
plain `{status: error, message}` dict — not a TaskRecord — with no TaskStore
side effects at all (no error record is created or stored). -/
theorem C4_unregistered_endpoint (st : GatewayState)
    (url msg gid : String) (resp : SendResponse) (arrival now : Nat)
    (delegate : ToolResponse × GatewayState)
    (h : dictGet st.agents url = Option.none) :
    send_message st url msg gid resp arrival now =
      (Except.error ("Agent not registered: " ++ url), st) ∧
    send_message_tool st url delegate =
      (ToolResponse.errorDict "error" ("Agent not registered: " ++ url),
       st) := by
  constructor
  · simp only [send_message, h]
  · simp only [send_message_tool, h]

/-- C4 witness: the amended theorem applied at the empty state. -/
theorem C4_witness :
    send_message emptyState "http://x" "hi" "g"
      (SendResponse.successMessage ["ok"]) 0 0 =
      (Except.error ("Agent not registered: " ++ "http://x"), emptyState) :=
  (C4_unregistered_endpoint emptyState "http://x" "hi" "g"
    (SendResponse.successMessage ["ok"]) 0 0
    (ToolResponse.errorDict "error" "x", emptyState) rfl).1

/-- C5: when a status probe for a non-terminal task gets an upstream
JSON-RPC error, `get_task_result` treats a message containing "not found"
(case-insensitively) leniently — the record is set to `running` with its
result left untouched — while every other upstream error sets the record to
terminal `error` with the remote code and message captured in its result;
in both cases the mutated record is stored and returned. -/
theorem C5_upstream_error_classification (st : GatewayState) (tid : String)
    (t : StoredTask) (info : AgentInfo) (code : Int) (msg : String)
    (now : Nat) (htask : dictGet st.tasks tid = Option.some t)
    (hnonterm : finalStates.contains t.status = false)
    (hagent : dictGet st.agents t.agent_url = Option.some info) :
    (strContains (pyLower msg) "not found" = true →
      get_task_result st tid (GetTaskReply.error code msg) now =
        (Except.ok (t.update_status "running" Option.none now),
         { st with
            tasks := dictSet st.tasks tid
              (t.update_status "running" Option.none now) },
         true)) ∧
    (strContains (pyLower msg) "not found" = false →
      get_task_result st tid (GetTaskReply.error code msg) now =
        (Except.ok (t.update_status "error"
            (Option.some [("request_status", PyVal.str "error"),
              ("message", PyVal.str ("Agent Error: " ++ msg ++ " (Code: " ++
                toString code ++ ")"))]) now),
         { st with
            tasks := dictSet st.tasks tid
              (t.update_status "error"
                (Option.some [("request_status", PyVal.str "error"),
                  ("message", PyVal.str ("Agent Error: " ++ msg ++
                    " (Code: " ++ toString code ++ ")"))]) now) },
         true)) := by
  constructor
  · intro hnf
    simp only [get_task_result, htask, hnonterm, hagent, hnf]
    rfl
  · intro hnf
    simp only [get_task_result, htask, hnonterm, hagent, hnf]
    rfl

/-- C5 witness: the lenient branch applied at a concrete state, task and
upstream "Task not found" error. -/
theorem C5_witness :
    get_task_result exState "gid2" (GetTaskReply.error (-32001)
      "Task not found") 7 =
      (Except.ok (exRunningTask.update_status "running" Option.none 7),
       { exState with
          tasks := dictSet exState.tasks "gid2"
            (exRunningTask.update_status "running" Option.none 7) },
       true) :=
  (C5_upstream_error_classification exState "gid2" exRunningTask
    { card_name := "Agent A" } (-32001) "Task not found" 7 rfl rfl rfl).1
    (by decide)

/-- C6: `get_task_result` on a task whose stored state is terminal returns
the stored record verbatim, leaves the whole gateway state unchanged and
performs no remote call, whatever reply the remote would have given; a
repeated call on the resulting state returns the identical snapshot. -/
theorem C6_terminal_get_task_result_pure (st : GatewayState) (tid : String)
    (t : StoredTask) (reply reply2 : GetTaskReply) (now now2 : Nat)
    (htask : dictGet st.tasks tid = Option.some t)
    (hterm : finalStates.contains t.status = true) :
    get_task_result st tid reply now = (Except.ok t, st, false) ∧
    get_task_result (get_task_result st tid reply now).2.1 tid reply2 now2 =
      (Except.ok t, st, false) := by
  have h1 : get_task_result st tid reply now = (Except.ok t, st, false) := by
    simp only [get_task_result, htask, hterm]
    rfl
  refine ⟨h1, ?_⟩
  rw [h1]
  simp only [get_task_result, htask, hterm]
  rfl

/-- C6 witness: both calls applied at a concrete completed task. -/
theorem C6_witness :
    get_task_result exState "gid1" (GetTaskReply.exn "boom") 9 =
      (Except.ok exCompletedTask, exState, false) :=
  (C6_terminal_get_task_result_pure exState "gid1" exCompletedTask
    (GetTaskReply.exn "boom") (GetTaskReply.exn "boom") 9 9 rfl rfl).1

/-- C7: `cancel_task` on a task whose stored state is already terminal
returns the existing stored record with state, result and timestamps
unchanged, leaves the gateway state untouched and performs no remote call,
whatever reply the remote would have given. -/
theorem C7_terminal_cancel_noop (st : GatewayState) (tid : String)
    (t : StoredTask) (reply : CancelReply) (now : Nat)
    (htask : dictGet st.tasks tid = Option.some t)
    (hterm : finalStates.contains t.status = true) :
    cancel_task st tid reply now = (Except.ok t, st, false) := by
  simp only [cancel_task, htask, hterm]
  rfl

/-- C7 witness: the theorem applied at a concrete completed task. -/
theorem C7_witness :
    cancel_task exState "gid1" (CancelReply.error 1 "busy") 9 =
      (Except.ok exCompletedTask, exState, false) :=
  C7_terminal_cancel_noop exState "gid1" exCompletedTask
    (CancelReply.error 1 "busy") 9 rfl rfl

theorem taskSortLe_trans (reverse : Bool) (a b c : StoredTask)
    (h1 : taskSortLe reverse a b = true)
    (h2 : taskSortLe reverse b c = true) : taskSortLe reverse a c = true := by
  cases reverse <;> simp [taskSortLe] at h1 h2 ⊢ <;> omega

theorem taskSortLe_total (reverse : Bool) (a b : StoredTask) :
    (taskSortLe reverse a b || taskSortLe reverse b a) = true := by
  cases reverse <;> simp [taskSortLe] <;> omega

theorem mergeSort_pairwise_taskSortLe (reverse : Bool)
    (ts : List StoredTask) :
    (ts.mergeSort (taskSortLe reverse)).Pairwise
      (fun a b => taskSortLe reverse a b = true) :=
  List.sorted_mergeSort (taskSortLe_trans reverse) (taskSortLe_total reverse)
    ts

theorem pySlice_pairwise {α : Type} {R : α → α → Prop} {l : List α}
    (n : Int) (h : l.Pairwise R) : (pySlice l n).Pairwise R := by
  rw [pySlice]
  split <;> exact h.sublist (List.take_sublist _ _)

theorem mem_pySlice {α : Type} {a : α} {l : List α} {n : Int}
    (h : a ∈ pySlice l n) : a ∈ l := by
  rw [pySlice] at h
  split at h <;> exact List.mem_of_mem_take h

theorem pySlice_length_le {α : Type} (l : List α) (n : Int) (h : 0 ≤ n) :
    ((pySlice l n).length : Int) ≤ n := by
  rw [pySlice, if_pos h]
  have hlen : (l.take n.toNat).length ≤ n.toNat := by
    rw [List.length_take]
    exact min_le_left _ _
  omega

/-- C8 counterexample: the claim that `get_task_list` returns at most
`number` tasks for every `number` argument is false — Python slice
semantics make a negative bound drop entries from the end instead, so with
three stored tasks and `number = -1` the call returns 2 tasks, and 2 is not
at most -1. -/
theorem C8_counterexample :
    (get_task_list exState.tasks "all" "Descending" (-1)).length = 2 ∧
    ¬ ((2 : Int) ≤ (-1 : Int)) := by
  constructor
  · simp only [get_task_list, pySlice]
    rw [if_neg (by decide : ¬ ((0 : Int) ≤ (-1 : Int)))]
    rw [List.length_take, List.length_mergeSort]
    decide
  · decide

/-- C8 (amended): for every task table and arguments with a nonnegative
`number`, `get_task_list` returns only tasks whose state equals `status`
exactly when `status` is not `"all"`, orders the result by `updated_at` —
most-recently-updated first for `sort = "Descending"`, oldest first for
`sort = "Ascending"` — and returns at most `number` tasks. (For negative
`number`, Python slice semantics instead drop entries from the end, see the
counterexample.) -/
theorem C8_get_task_list_spec (tasks : List (String × StoredTask))
    (status sort : String) (number : Int) (h : 0 ≤ number) :
    (∀ t ∈ get_task_list tasks status sort number,
        status ≠ "all" → t.status = status) ∧
    (sort = "Descending" →
      (get_task_list tasks status sort number).Pairwise
        (fun a b => b.updated_at ≤ a.updated_at)) ∧
    (sort = "Ascending" →
      (get_task_list tasks status sort number).Pairwise
        (fun a b => a.updated_at ≤ b.updated_at)) ∧
    ((get_task_list tasks status sort number).length : Int) ≤ number := by
  refine ⟨?_, ?_, ?_, ?_⟩
  · intro t ht hstat
    simp only [get_task_list] at ht
    have h1 := mem_pySlice ht
    rw [List.mem_mergeSort, if_pos hstat] at h1
    exact of_decide_eq_true (List.mem_filter.mp h1).2
  · intro hsort
    simp only [get_task_list]
    refine pySlice_pairwise _ ?_
    refine (mergeSort_pairwise_taskSortLe _ _).imp ?_
    intro a b hab
    rw [hsort] at hab
    have hrev : (decide ("Descending" = "Descending") : Bool) = true := by
      decide
    simpa [taskSortLe, hrev] using hab
  · intro hsort
    simp only [get_task_list]
    refine pySlice_pairwise _ ?_
    refine (mergeSort_pairwise_taskSortLe _ _).imp ?_
    intro a b hab
    rw [hsort] at hab
    have hrev : (decide ("Ascending" = "Descending") : Bool) = false := by
      decide
    simpa [taskSortLe, hrev] using hab
  · simp only [get_task_list]
    exact pySlice_length_le _ _ h

/-- C8 witness: the amended theorem applied at the concrete fixture with
`status = "completed"`, `sort = "Descending"`, `number = 2`. -/
theorem C8_witness :
    ((get_task_list exState.tasks "completed" "Descending" 2).length :
      Int) ≤ 2 :=
  (C8_get_task_list_spec exState.tasks "completed" "Descending" 2
    (by decide)).2.2.2

/-- C9: unregistering a registered endpoint pops its registry entry, deletes
every stored task whose `agent_url` equals that endpoint (leaving no task
referencing it) and reports the count of removed tasks; unregistering an
unknown endpoint returns the not-found error and changes nothing. -/
theorem C9_unregister_agent (st : GatewayState) (url : String) :
    (∀ info, dictGet st.agents url = Option.some info →
      unregister_agent_tool st url =
        (UnregisterResult.success info.card_name
          ((st.tasks.filter (fun p => p.2.agent_url = url)).length),
         { tasks := st.tasks.filter (fun p => p.2.agent_url ≠ url),
           agents := st.agents.filter (fun p => p.1 ≠ url) }) ∧
      (∀ p ∈ (unregister_agent_tool st url).2.tasks,
        p.2.agent_url ≠ url)) ∧
    (dictGet st.agents url = Option.none →
      unregister_agent_tool st url =
        (UnregisterResult.notFound ("Agent not registered: " ++ url),
         st)) := by
  constructor
  · intro info hinfo
    have heq : unregister_agent_tool st url =
        (UnregisterResult.success info.card_name
          ((st.tasks.filter (fun p => p.2.agent_url = url)).length),
         { tasks := st.tasks.filter (fun p => p.2.agent_url ≠ url),
           agents := st.agents.filter (fun p => p.1 ≠ url) }) := by
      simp only [unregister_agent_tool, agent_manager_unregister,
        remove_tasks_for_agent, hinfo]
    refine ⟨heq, ?_⟩
    intro p hp
    rw [heq] at hp
    exact of_decide_eq_true (List.mem_filter.mp hp).2
  · intro hnone
    simp only [unregister_agent_tool, agent_manager_unregister, hnone]

/-- C9 witness: the theorem applied at the fixture, whose two tasks at the
registered endpoint are removed while the task of the other endpoint
survives. -/
theorem C9_witness :
    unregister_agent_tool exState "http://a" =
      (UnregisterResult.success "Agent A" 2,
       { tasks := [("gid3", exOtherTask)], agents := [] }) :=
  (((C9_unregister_agent exState "http://a").1 { card_name := "Agent A" }
    rfl).1).trans (by decide)

/-- C10: calling `get_task_result` for a non-terminal task whose `agent_url`
is no longer in the agent registry mutates the stored record to terminal
`error` with a result message noting the agent is no longer registered,
stores it, and returns it — without raising and without any remote call. -/
theorem C10_missing_agent_terminal_error (st : GatewayState) (tid : String)
    (t : StoredTask) (reply : GetTaskReply) (now : Nat)
    (htask : dictGet st.tasks tid = Option.some t)
    (hnonterm : finalStates.contains t.status = false)
    (hagent : dictGet st.agents t.agent_url = Option.none) :
    get_task_result st tid reply now =
      (Except.ok (t.update_status "error"
          (Option.some [("message",
            PyVal.str "Agent for this task is no longer registered.")]) now),
       { st with
          tasks := dictSet st.tasks tid
            (t.update_status "error"
              (Option.some [("message",
                PyVal.str "Agent for this task is no longer registered.")])
              now) },
       false) ∧
    (t.update_status "error"
      (Option.some [("message",
        PyVal.str "Agent for this task is no longer registered.")])
      now).status = "error" := by
  constructor
  · simp only [get_task_result, htask, hnonterm, hagent]
    rfl
  · rfl

/-- C10 witness: the theorem applied at a concrete restored task whose agent
is not registered. -/
theorem C10_witness :
    get_task_result exState "gid3" (GetTaskReply.exn "ignored") 11 =
      (Except.ok (exOtherTask.update_status "error"
          (Option.some [("message",
            PyVal.str "Agent for this task is no longer registered.")]) 11),
       { exState with
          tasks := dictSet exState.tasks "gid3"
            (exOtherTask.update_status "error"
              (Option.some [("message",
                PyVal.str "Agent for this task is no longer registered.")])
              11) },
       false) :=
  (C10_missing_agent_terminal_error exState "gid3" exOtherTask
    (GetTaskReply.exn "ignored") 11 rfl rfl rfl).1

end Gateway
